import Mathlib

/-!
Verification of the Csfloat-Trades scanner core (src/scanner.py) against its
natural-language specification.  Monetary amounts and float values are
modelled as rationals; the upstream feed, the upstream price-lookup API and
the wall clock are explicit parameters, so every function here is a pure
shallow embedding of the corresponding Python method of class `Scanner`.
-/

namespace CsfloatTrades

/-- One entry of the `dynamic_profit_targets` configuration list. -/
structure ProfitTier where
  max_skin_price : ℚ
  min_profit_usd : ℚ
  min_profit_percentage : ℚ
  deriving DecidableEq

/-- The tier walk inside `Scanner.is_deal_profitable` (scanner.py lines
145-150): the first tier whose `max_skin_price` bounds the base price decides
the answer and the loop returns immediately, true or false. -/
def profit_tier_loop (profit base_price profit_percent : ℚ) :
    List ProfitTier → Bool
  | [] => false
  | tier :: rest =>
    if base_price ≤ tier.max_skin_price then
      decide (profit ≥ tier.min_profit_usd) ||
        decide (profit_percent ≥ tier.min_profit_percentage)
    else profit_tier_loop profit base_price profit_percent rest

/-- `Scanner.is_deal_profitable` (scanner.py lines 141-150).  `targets` is
`config.get("dynamic_profit_targets", [])`. -/
def is_deal_profitable (targets : List ProfitTier) (profit base_price : ℚ) :
    Bool :=
  if base_price ≤ 0 then false
  else profit_tier_loop profit base_price (profit / base_price * 100) targets

/-- When every tier of a prefix fails to bound the base price, the tier walk
skips that prefix. -/
theorem profit_tier_loop_append_no_match (profit base_price pp : ℚ)
    (pre rest : List ProfitTier)
    (hpre : ∀ t ∈ pre, ¬ base_price ≤ t.max_skin_price) :
    profit_tier_loop profit base_price pp (pre ++ rest) =
      profit_tier_loop profit base_price pp rest := by
  induction pre with
  | nil => rfl
  | cons t pre ih =>
    have ht : ¬ base_price ≤ t.max_skin_price := hpre t (by simp)
    have hrest : ∀ u ∈ pre, ¬ base_price ≤ u.max_skin_price := by
      intro u hu; exact hpre u (by simp [hu])
    simp only [List.cons_append, profit_tier_loop, if_neg ht]
    exact ih hrest

/-- Claim C4: `is_deal_profitable` returns false when `base_price ≤ 0`;
otherwise the first tier with `base_price ≤ max_skin_price` is authoritative:
the result is exactly the disjunction `profit ≥ min_profit_usd ∨
profit / base_price * 100 ≥ min_profit_percentage` for that tier, with no
fall-through to later tiers; and when no tier bounds the base price the
result is false. -/
theorem is_deal_profitable_spec (targets : List ProfitTier)
    (profit base_price : ℚ) :
    (base_price ≤ 0 → is_deal_profitable targets profit base_price = false) ∧
    (0 < base_price →
      ∀ pre tier post, targets = pre ++ tier :: post →
        (∀ t ∈ pre, ¬ base_price ≤ t.max_skin_price) →
        base_price ≤ tier.max_skin_price →
        is_deal_profitable targets profit base_price =
          (decide (profit ≥ tier.min_profit_usd) ||
            decide (profit / base_price * 100 ≥ tier.min_profit_percentage))) ∧
    (0 < base_price →
      (∀ t ∈ targets, ¬ base_price ≤ t.max_skin_price) →
      is_deal_profitable targets profit base_price = false) := by
  refine ⟨fun hle => by simp [is_deal_profitable, hle], ?_, ?_⟩
  · intro hpos pre tier post hsplit hpre htier
    have hnle : ¬ base_price ≤ 0 := not_le.mpr hpos
    simp only [is_deal_profitable, if_neg hnle, hsplit,
      profit_tier_loop_append_no_match _ _ _ _ _ hpre,
      profit_tier_loop, if_pos htier]
  · intro hpos hall
    have hnle : ¬ base_price ≤ 0 := not_le.mpr hpos
    simp only [is_deal_profitable, if_neg hnle]
    induction targets with
    | nil => rfl
    | cons t rest ih =>
      have ht : ¬ base_price ≤ t.max_skin_price := hall t (by simp)
      simp only [profit_tier_loop, if_neg ht]
      exact ih (fun u hu => hall u (by simp [hu]))

/-- Claim C4 witness: concrete two-tier table, base price 50 matching the
first tier, profit 12 clearing the absolute threshold. -/
theorem is_deal_profitable_spec_witness :
    is_deal_profitable [⟨100, 10, 15⟩, ⟨500, 30, 10⟩] 12 50 = true :=
  ((is_deal_profitable_spec [⟨100, 10, 15⟩, ⟨500, 30, 10⟩] 12 50).2.1
      (by norm_num) [] ⟨100, 10, 15⟩ [⟨500, 30, 10⟩] rfl
      (by simp) (by norm_num)).trans (by decide)

/-- Claim C5: with a positive base price and a matching tier present, the
result of `is_deal_profitable` depends only on the part of the table up to
and including the first matching tier: every table sharing that prefix gives
the same answer, whatever stands after the first match.  Determinism is
immediate because the embedding is a function of its arguments. -/
theorem is_deal_profitable_truncation (profit base_price : ℚ)
    (pre : List ProfitTier) (tier : ProfitTier) (post post₂ : List ProfitTier)
    (hpos : 0 < base_price)
    (hpre : ∀ t ∈ pre, ¬ base_price ≤ t.max_skin_price)
    (htier : base_price ≤ tier.max_skin_price) :
    is_deal_profitable (pre ++ tier :: post) profit base_price =
      is_deal_profitable (pre ++ tier :: post₂) profit base_price := by
  have hnle : ¬ base_price ≤ 0 := not_le.mpr hpos
  simp only [is_deal_profitable, if_neg hnle,
    profit_tier_loop_append_no_match _ _ _ _ _ hpre,
    profit_tier_loop, if_pos htier]

/-- Claim C5 witness: replacing everything after the first matching tier by a
different tier leaves the result unchanged at a concrete input. -/
theorem is_deal_profitable_truncation_witness :
    is_deal_profitable [⟨100, 10, 15⟩, ⟨500, 30, 10⟩] 12 50 =
      is_deal_profitable [⟨100, 10, 15⟩, ⟨9, 9, 9⟩] 12 50 :=
  is_deal_profitable_truncation 12 50 [] ⟨100, 10, 15⟩
    [⟨500, 30, 10⟩] [⟨9, 9, 9⟩] (by norm_num) (by simp) (by norm_num)

/-- One entry of `self.price_cache`: a price in major units and the
`time.time()` at which it was stored. -/
structure CachedPrice where
  price : ℚ
  timestamp : ℚ
  deriving DecidableEq

/-- What one call to the upstream price-lookup API yields, seen from
`Scanner.get_market_price`: either some exception before the JSON is parsed
(network error, non-2xx status, malformed body), or a parsed body with its
`success` flag and its optional numeric `price` field. -/
inductive LookupResult where
  | failure : LookupResult
  | response (success : Bool) (price : Option ℚ) : LookupResult
  deriving DecidableEq

/-- Everything one call to `get_market_price` produces: the returned price,
the cache afterwards, whether an outbound lookup was issued, and whether the
2.5-unit cooldown sleep ran. -/
structure PriceResult where
  price : ℚ
  cache : String → Option CachedPrice
  madeExternalCall : Bool
  sleptCooldown : Bool

/-- The external-lookup half of `Scanner.get_market_price` (scanner.py lines
31-46): a raised exception prints and returns 0 without caching or sleeping;
a parsed body with `success` stores `float(price_data.get("price", "0"))`
under the current timestamp, sleeps 2.5 units and returns that price; a
parsed body without `success` falls through to the final `return 0`. -/
def fetch_external_price (cache : String → Option CachedPrice) (now : ℚ)
    (resp : LookupResult) (name : String) : PriceResult :=
  match resp with
  | .failure => ⟨0, cache, true, false⟩
  | .response success priceField =>
    if success then
      let price := priceField.getD 0
      ⟨price, fun n => if n = name then some ⟨price, now⟩ else cache n,
        true, true⟩
    else ⟨0, cache, true, false⟩

/-- `Scanner.get_market_price` (scanner.py lines 25-46): a cached entry less
than 3600 time units old is returned as is; otherwise the upstream API is
consulted.  `now` stands for `time.time()` and `resp` for what the upstream
would answer if asked during this call. -/
def get_market_price (cache : String → Option CachedPrice) (now : ℚ)
    (resp : LookupResult) (name : String) : PriceResult :=
  match cache name with
  | some entry =>
    if now - entry.timestamp < 3600 then ⟨entry.price, cache, false, false⟩
    else fetch_external_price cache now resp name
  | none => fetch_external_price cache now resp name

/-- The cached entry for `name`, if any, is absent or already expired at
time `t`, so a call at `t` goes to the upstream API. -/
def cacheStale (cache : String → Option CachedPrice) (name : String)
    (t : ℚ) : Prop :=
  ∀ entry, cache name = some entry → 3600 ≤ t - entry.timestamp

/-- A cached entry younger than 3600 units is returned without touching the
upstream API. -/
theorem get_market_price_hit (cache : String → Option CachedPrice) (now : ℚ)
    (resp : LookupResult) (name : String) (entry : CachedPrice)
    (hentry : cache name = some entry)
    (hfresh : now - entry.timestamp < 3600) :
    get_market_price cache now resp name
      = ⟨entry.price, cache, false, false⟩ := by
  unfold get_market_price
  rw [hentry]
  dsimp only
  rw [if_pos hfresh]

/-- An absent or expired entry sends the call to the external lookup. -/
theorem get_market_price_stale_eq (cache : String → Option CachedPrice)
    (now : ℚ) (resp : LookupResult) (name : String)
    (hstale : cacheStale cache name now) :
    get_market_price cache now resp name
      = fetch_external_price cache now resp name := by
  unfold get_market_price
  cases hc : cache name with
  | none => rfl
  | some e =>
    dsimp only
    rw [if_neg (not_lt.mpr (hstale e hc))]

/-- Claim C6 counterexample: with a one-hour-old entry (price 5, stored at
time 0) and an upstream lookup that fails at time 3600, the call does issue a
new external lookup but leaves the stale entry untouched: the stored
timestamp stays 0, not the claimed overwritten fetch time 3600. -/
theorem get_market_price_no_overwrite_on_failure :
    (get_market_price (fun n => if n = "AK-47 | Redline (Field-Tested)"
        then some ⟨5, 0⟩ else none) 3600 .failure
        "AK-47 | Redline (Field-Tested)").madeExternalCall = true ∧
    (get_market_price (fun n => if n = "AK-47 | Redline (Field-Tested)"
        then some ⟨5, 0⟩ else none) 3600 .failure
        "AK-47 | Redline (Field-Tested)").cache
        "AK-47 | Redline (Field-Tested)" = some ⟨5, 0⟩ ∧
    (0 : ℚ) ≠ 3600 := by
  have h := get_market_price_stale_eq
    (fun n => if n = "AK-47 | Redline (Field-Tested)"
      then some ⟨5, 0⟩ else none) 3600 .failure
    "AK-47 | Redline (Field-Tested)"
    (by intro e he; simp at he; rw [← he]; norm_num)
  rw [h]
  refine ⟨rfl, by simp [fetch_external_price], by norm_num⟩

/-- Claim C6 as amended: (a) after a successful fetch at `t₁` (cache stale
beforehand, upstream replies success), a second call for the same name
strictly less than one hour later issues no external lookup and returns the
same price, so the two calls perform exactly one external lookup; (b) a call
made at or after one hour since the cached entry was stored issues a new
external lookup, and when that lookup succeeds it overwrites the entry with
the new price and the new fetch time. -/
theorem get_market_price_cache_spec
    (cache : String → Option CachedPrice) (name : String) (t₁ t₂ : ℚ)
    (p : Option ℚ) (resp₂ : LookupResult)
    (hstale : cacheStale cache name t₁) (hwin : t₂ - t₁ < 3600)
    (cache₂ : String → Option CachedPrice) (entry : CachedPrice) (t₃ : ℚ)
    (hentry : cache₂ name = some entry)
    (hexp : 3600 ≤ t₃ - entry.timestamp) (resp₃ : LookupResult) (q : Option ℚ) :
    (get_market_price cache t₁ (.response true p) name).madeExternalCall
        = true ∧
    (get_market_price
        (get_market_price cache t₁ (.response true p) name).cache
        t₂ resp₂ name).madeExternalCall = false ∧
    (get_market_price
        (get_market_price cache t₁ (.response true p) name).cache
        t₂ resp₂ name).price
      = (get_market_price cache t₁ (.response true p) name).price ∧
    (get_market_price cache₂ t₃ resp₃ name).madeExternalCall = true ∧
    (resp₃ = .response true q →
      (get_market_price cache₂ t₃ resp₃ name).cache name
        = some ⟨q.getD 0, t₃⟩) := by
  have hr₁ : get_market_price cache t₁ (.response true p) name =
      ⟨p.getD 0, fun n => if n = name then some ⟨p.getD 0, t₁⟩ else cache n,
        true, true⟩ := by
    rw [get_market_price_stale_eq cache t₁ _ name hstale]
    simp [fetch_external_price]
  have hc₁ : (get_market_price cache t₁ (.response true p) name).cache name
      = some ⟨p.getD 0, t₁⟩ := by rw [hr₁]; simp
  have hr₂ := get_market_price_hit
    (get_market_price cache t₁ (.response true p) name).cache t₂ resp₂ name
    ⟨p.getD 0, t₁⟩ hc₁ (by simpa using hwin)
  have hstale₃ : cacheStale cache₂ name t₃ := by
    intro e he
    rw [hentry] at he
    cases he
    exact hexp
  have hr₃ := get_market_price_stale_eq cache₂ t₃ resp₃ name hstale₃
  refine ⟨by rw [hr₁], by rw [hr₂], by rw [hr₂, hr₁], ?_, ?_⟩
  · rw [hr₃]
    cases resp₃ with
    | failure => rfl
    | response s q' => simp only [fetch_external_price]; split <;> rfl
  · intro hresp
    subst hresp
    rw [hr₃]
    simp [fetch_external_price]

/-- Claim C6 witness: empty cache, successful fetch of price 7 at time 0, a
cache hit at time 3599, and an expired entry (stored at time 0) refetched
successfully at time 3600 with price 9. -/
theorem get_market_price_cache_spec_witness :
    (get_market_price (fun _ => none) 0 (.response true (some 7))
        "x").madeExternalCall = true ∧
    (get_market_price
        (get_market_price (fun _ => none) 0 (.response true (some 7)) "x").cache
        3599 .failure "x").madeExternalCall = false ∧
    (get_market_price
        (get_market_price (fun _ => none) 0 (.response true (some 7)) "x").cache
        3599 .failure "x").price
      = (get_market_price (fun _ => none) 0 (.response true (some 7)) "x").price ∧
    (get_market_price (fun n => if n = "x" then some ⟨7, 0⟩ else none) 3600
        (.response true (some 9)) "x").madeExternalCall = true ∧
    ((.response true (some 9) : LookupResult) = .response true (some 9) →
      (get_market_price (fun n => if n = "x" then some ⟨7, 0⟩ else none) 3600
          (.response true (some 9)) "x").cache "x"
        = some ⟨(some (9 : ℚ)).getD 0, 3600⟩) :=
  get_market_price_cache_spec (fun _ => none) "x" 0 3599 (some 7) .failure
    (fun entry h => by simp at h) (by norm_num)
    (fun n => if n = "x" then some ⟨7, 0⟩ else none) ⟨7, 0⟩ 3600
    (by simp) (by norm_num) (.response true (some 9)) (some 9)

/-- Claim C10: a lookup whose parsed body reports `success` but carries a
zero or missing price is handled on the success path: 0 is stored in the
cache under the current time, the 2.5-unit cooldown sleep runs, 0 is
returned, and a second lookup of the same name strictly less than one hour
later is served from the cache — it returns 0 with no external call. -/
theorem get_market_price_zero_price_cached
    (cache : String → Option CachedPrice) (name : String) (t₁ t₂ : ℚ)
    (p : Option ℚ) (resp₂ : LookupResult)
    (hstale : cacheStale cache name t₁) (hp : p.getD 0 = 0)
    (hwin : t₂ - t₁ < 3600) :
    (get_market_price cache t₁ (.response true p) name).price = 0 ∧
    (get_market_price cache t₁ (.response true p) name).cache name
      = some ⟨0, t₁⟩ ∧
    (get_market_price cache t₁ (.response true p) name).madeExternalCall
      = true ∧
    (get_market_price cache t₁ (.response true p) name).sleptCooldown
      = true ∧
    (get_market_price
        (get_market_price cache t₁ (.response true p) name).cache
        t₂ resp₂ name).price = 0 ∧
    (get_market_price
        (get_market_price cache t₁ (.response true p) name).cache
        t₂ resp₂ name).madeExternalCall = false := by
  have hr₁ : get_market_price cache t₁ (.response true p) name =
      ⟨0, fun n => if n = name then some ⟨0, t₁⟩ else cache n,
        true, true⟩ := by
    rw [get_market_price_stale_eq cache t₁ _ name hstale]
    simp [fetch_external_price, hp]
  have hc₁ : (get_market_price cache t₁ (.response true p) name).cache name
      = some ⟨0, t₁⟩ := by rw [hr₁]; simp
  have hr₂ := get_market_price_hit
    (get_market_price cache t₁ (.response true p) name).cache t₂ resp₂ name
    ⟨0, t₁⟩ hc₁ (by simpa using hwin)
  exact ⟨by rw [hr₁], hc₁, by rw [hr₁], by rw [hr₁], by rw [hr₂],
    by rw [hr₂]⟩

/-- Claim C10 witness: empty cache, a success body with a missing price
field at time 0, and a second call at time 100. -/
theorem get_market_price_zero_price_cached_witness :
    (get_market_price (fun _ => none) 0 (.response true none) "x").price = 0 ∧
    (get_market_price (fun _ => none) 0 (.response true none) "x").cache "x"
      = some ⟨0, 0⟩ ∧
    (get_market_price (fun _ => none) 0 (.response true none)
        "x").madeExternalCall = true ∧
    (get_market_price (fun _ => none) 0 (.response true none)
        "x").sleptCooldown = true ∧
    (get_market_price
        (get_market_price (fun _ => none) 0 (.response true none) "x").cache
        100 .failure "x").price = 0 ∧
    (get_market_price
        (get_market_price (fun _ => none) 0 (.response true none) "x").cache
        100 .failure "x").madeExternalCall = false :=
  get_market_price_zero_price_cached (fun _ => none) "x" 0 100 none .failure
    (fun entry h => by simp at h) rfl (by norm_num)

/-- A sticker or keychain attached to a listing, with its optional
secondary-market quote `scm.price` and its reference quote
`reference.price` (default 0), both in minor currency units. -/
structure Decoration where
  name : String
  scm_price : Option ℚ
  reference_price : ℚ
  deriving DecidableEq

/-- One listing of the upstream feed, holding the fields the scanner reads:
`id`, the nested `item` descriptor (market name, wear name, float value,
souvenir flag, stickers, keychains, icon URL), the listing `price` and the
reference `base_price`, both in minor currency units. -/
structure Listing where
  id : String
  market_hash_name : String
  wear_name : Option String
  float_value : Option ℚ
  is_souvenir : Bool
  stickers : List Decoration
  keychains : List Decoration
  price : ℚ
  base_price : ℚ
  icon_url : String
  deriving DecidableEq

/-- What the upstream feed answers to one page request, as
`Scanner.fetch_listings` distinguishes the cases: a well-formed envelope
with its data and optional continuation cursor, an envelope missing the
`data` key, an HTTP 429, an HTTP 403, another HTTP error, or a
network-level error. -/
inductive PageResponse where
  | ok (items : List Listing) (cursor : Option String) : PageResponse
  | badEnvelope : PageResponse
  | http429 : PageResponse
  | http403 : PageResponse
  | httpOther : PageResponse
  | networkError : PageResponse
  deriving DecidableEq

/-- Observable step of one `fetch_listings` run: a page request (with the
cursor parameter it carried — all other request parameters are constants of
the configuration) and its response, the 60-unit rate-limit wait, or the
2.5-unit wait between successful pages. -/
inductive FetchEvent where
  | request (cursor : Option String) (resp : PageResponse) : FetchEvent
  | sleep60 : FetchEvent
  | sleepInterPage : FetchEvent
  deriving DecidableEq

/-- The `for page in range(scan_pages)` loop of `Scanner.fetch_listings`
(scanner.py lines 86-137).  `feed k` is the response to the k-th HTTP
request of the run, `budget` the remaining loop iterations, `cursor` the
continuation cursor carried by the next request.  Returns the accumulated
listings (each page filtered against `seen` before accumulation) and the
trace of requests and waits.  A 429 sleeps 60 units and continues the loop
with the cursor unchanged; a 403, another HTTP error, a network error or a
malformed envelope ends the loop keeping what was accumulated; a page
without continuation cursor ends the loop normally. -/
def fetch_listings_go (feed : ℕ → PageResponse) (seen : List String) :
    ℕ → Option String → ℕ → List Listing × List FetchEvent
  | 0, _, _ => ([], [])
  | budget + 1, cursor, k =>
    match feed k with
    | .ok items pageCursor =>
      let newItems := items.filter (fun it => decide (it.id ∉ seen))
      match pageCursor with
      | none => (newItems, [.request cursor (.ok items none)])
      | some c =>
        let rest := fetch_listings_go feed seen budget (some c) (k + 1)
        (newItems ++ rest.1,
          .request cursor (.ok items (some c)) :: .sleepInterPage :: rest.2)
    | .badEnvelope => ([], [.request cursor .badEnvelope])
    | .http429 =>
      let rest := fetch_listings_go feed seen budget cursor (k + 1)
      (rest.1, .request cursor .http429 :: .sleep60 :: rest.2)
    | .http403 => ([], [.request cursor .http403])
    | .httpOther => ([], [.request cursor .httpOther])
    | .networkError => ([], [.request cursor .networkError])

/-- `Scanner.fetch_listings` (scanner.py lines 83-139): up to
`scan_pages` loop iterations, first request without cursor.  `seen` is
`self.seen_listing_ids` at the start of the call; `fetch_listings` itself
never mutates it. -/
def fetch_listings (feed : ℕ → PageResponse) (seen : List String)
    (scan_pages : ℕ) : List Listing × List FetchEvent :=
  fetch_listings_go feed seen scan_pages none 0

/-- Number of successfully fetched pages in a trace. -/
def pagesFetched (events : List FetchEvent) : ℕ :=
  (events.filter (fun e => match e with
    | .request _ (.ok _ _) => true
    | _ => false)).length

/-- No listing whose identifier is in `seen` survives the per-page filter,
whatever the cursor and request counter. -/
theorem fetch_listings_go_not_seen (feed : ℕ → PageResponse)
    (seen : List String) (budget : ℕ) (cursor : Option String) (k : ℕ) :
    ∀ it ∈ (fetch_listings_go feed seen budget cursor k).1, it.id ∉ seen := by
  induction budget generalizing cursor k with
  | zero => intro it h; simp [fetch_listings_go] at h
  | succ b ih =>
    intro it h
    cases hresp : feed k with
    | ok items pageCursor =>
      cases pageCursor with
      | none =>
        simp only [fetch_listings_go, hresp] at h
        have := List.of_mem_filter h
        simpa using this
      | some c =>
        simp only [fetch_listings_go, hresp] at h
        rcases List.mem_append.mp h with h₁ | h₂
        · have := List.of_mem_filter h₁
          simpa using this
        · exact ih (some c) (k + 1) it h₂
    | badEnvelope => simp [fetch_listings_go, hresp] at h
    | http429 =>
      simp only [fetch_listings_go, hresp] at h
      exact ih cursor (k + 1) it h
    | http403 => simp [fetch_listings_go, hresp] at h
    | httpOther => simp [fetch_listings_go, hresp] at h
    | networkError => simp [fetch_listings_go, hresp] at h

/-- Claim C7: a listing whose identifier is already in SeenSet when
`fetch_listings` starts never appears in the output of that call, for every
feed behaviour and page budget. -/
theorem fetch_listings_dedup (feed : ℕ → PageResponse) (seen : List String)
    (scan_pages : ℕ) (it : Listing)
    (hmem : it ∈ (fetch_listings feed seen scan_pages).1) :
    it.id ∉ seen :=
  fetch_listings_go_not_seen feed seen scan_pages none 0 it hmem

/-- Claim C7 witness: a one-page feed carrying the unseen listing with
identifier b while a is already seen. -/
theorem fetch_listings_dedup_witness :
    ("b" : String) ∉ (["a"] : List String) :=
  fetch_listings_dedup
    (fun _ => .ok [⟨"b", "AK-47 | Redline (Field-Tested)",
      some "Field-Tested", some (151/1000), false, [], [], 10200, 10000, ""⟩]
      none)
    ["a"] 1
    ⟨"b", "AK-47 | Redline (Field-Tested)", some "Field-Tested",
      some (151/1000), false, [], [], 10200, 10000, ""⟩
    (by simp [fetch_listings, fetch_listings_go])

/-- Claim C1 counterexample: `scan_pages = 2`, the feed answers 429 to the
first request and then serves two well-formed pages (the second reachable
through the cursor of the first).  The claim says a single 429 still lets
the full budget of 2 distinct pages be fetched; the run fetches only 1 page,
because the `continue` after the 60-unit wait advances the
`for page in range(...)` loop and so consumes one iteration of the budget. -/
theorem fetch_listings_429_consumes_budget :
    pagesFetched (fetch_listings
      (fun k => if k = 0 then PageResponse.http429
        else if k = 1 then PageResponse.ok
          [⟨"x", "n1", none, none, false, [], [], 100, 100, ""⟩] (some "c1")
        else PageResponse.ok
          [⟨"y", "n2", none, none, false, [], [], 100, 100, ""⟩] none)
      [] 2).2 = 1 ∧ (1 : ℕ) ≠ 2 := by
  constructor
  · rfl
  · decide

/-- Claim C1 as amended: a 429 response to the request carrying a given
cursor produces exactly one 60-unit wait followed by a repeated request with
the same cursor (hence the same page parameters), but the retry consumes one
iteration of the `scan_pages` budget: the loop continues with the budget
decremented, so a run with exactly one 429 fetches at most
`scan_pages - 1` distinct pages. -/
theorem fetch_listings_go_rate_limit (feed : ℕ → PageResponse)
    (seen : List String) (budget : ℕ) (cursor : Option String) (k : ℕ)
    (h429 : feed k = .http429) :
    fetch_listings_go feed seen (budget + 1) cursor k =
      ((fetch_listings_go feed seen budget cursor (k + 1)).1,
        .request cursor .http429 :: .sleep60 ::
          (fetch_listings_go feed seen budget cursor (k + 1)).2) := by
  simp only [fetch_listings_go, h429]

/-- Claim C1 witness: a feed that always answers 429, budget 1. -/
theorem fetch_listings_go_rate_limit_witness :
    fetch_listings (fun _ => PageResponse.http429) [] 1 =
      ([], [FetchEvent.request none .http429, FetchEvent.sleep60]) := by
  unfold fetch_listings
  rw [fetch_listings_go_rate_limit (fun _ => PageResponse.http429) [] 0
    none 0 rfl]
  rfl

/-- Character-list version of the Python test `w` starts the string. -/
def charsStartWith : List Char → List Char → Bool
  | [], _ => true
  | _ :: _, [] => false
  | a :: as, b :: bs => a == b && charsStartWith as bs

/-- Character-list version of the Python membership test `w in name`. -/
def charsContain (w : List Char) : List Char → Bool
  | [] => w.isEmpty
  | c :: rest => charsStartWith w (c :: rest) || charsContain w rest

/-- Python substring test `w in name`. -/
def substrOf (w name : String) : Bool := charsContain w.data name.data

/-- The shared included-weapon pre-filter
`any(w in name for w in config["included_weapons"])`. -/
def nameIncluded (included : List String) (name : String) : Bool :=
  included.any (fun w => substrOf w name)

/-- `self.wear_tiers` (scanner.py line 14); a lower index is better wear. -/
def wear_tiers : List String :=
  ["Factory New", "Minimal Wear", "Field-Tested", "Well-Worn",
    "Battle-Scarred"]

/-- `self.wear_tier_min_floats` (scanner.py lines 16-22), the lowest
possible float of each wear tier, as the Python dict `get`. -/
def wear_tier_min_floats : String → Option ℚ := fun w =>
  if w = "Factory New" then some 0
  else if w = "Minimal Wear" then some (7 / 100)
  else if w = "Field-Tested" then some (15 / 100)
  else if w = "Well-Worn" then some (38 / 100)
  else if w = "Battle-Scarred" then some (45 / 100)
  else none

/-- Python `list.index`, with `none` where Python raises ValueError. -/
def list_index (l : List String) (w : String) : Option ℕ :=
  match l with
  | [] => none
  | x :: rest => if x = w then some 0 else (list_index rest w).map (· + 1)

/-- A member found by `list_index` is a member of the list. -/
theorem list_index_mem (l : List String) (w : String) (i : ℕ)
    (h : list_index l w = some i) : w ∈ l := by
  induction l generalizing i with
  | nil => simp [list_index] at h
  | cons x rest ih =>
    by_cases hx : x = w
    · simp [hx]
    · simp only [list_index, if_neg hx, Option.map_eq_some'] at h
      obtain ⟨j, hj, _⟩ := h
      exact List.mem_cons_of_mem x (ih j hj)

/-- Drop characters up to and including the first closing parenthesis. -/
def dropToClose : List Char → Option (List Char)
  | [] => none
  | c :: rest => if c = ')' then some rest else dropToClose rest

/-- `dropToClose` consumes at least one character. -/
theorem dropToClose_length (l res : List Char)
    (h : dropToClose l = some res) : res.length < l.length := by
  induction l generalizing res with
  | nil => simp [dropToClose] at h
  | cons c rest ih =>
    simp only [dropToClose] at h
    split at h
    · cases h
      simp
    · exact Nat.lt_trans (ih res h) (by simp)

/-- `re.sub(r" \((.*?)\)", "", name)` on the character list: every minimal
group of a space, an opening parenthesis, any characters and the first
closing parenthesis is deleted; a space-parenthesis pair never closed is
kept verbatim (the pattern finds no match there). -/
def stripParensChars : List Char → List Char
  | [] => []
  | [c] => [c]
  | c₁ :: c₂ :: rest =>
    if c₁ = ' ' ∧ c₂ = '(' then
      match hdrop : dropToClose rest with
      | some rest₂ => stripParensChars rest₂
      | none => c₁ :: stripParensChars (c₂ :: rest)
    else c₁ :: stripParensChars (c₂ :: rest)
  termination_by l => l.length
  decreasing_by
  · have := dropToClose_length rest rest₂ hdrop
    simp only [List.length_cons]
    omega
  · simp only [List.length_cons]
    omega
  · simp only [List.length_cons]
    omega

/-- `name_no_wear = re.sub(r" \((.*?)\)", "", name)` (scanner.py lines 195
and 251). -/
def stripParens (s : String) : String := ⟨stripParensChars s.data⟩

/-- The fields of an emitted deal that the claims refer to.  The free-form
`details` map of strategy-specific presentation figures is heterogeneous
display data and is not modelled. -/
structure Deal where
  listing_id : String
  strategy : String
  name : String
  image_url : String
  profit : ℚ
  url : String
  deriving DecidableEq

/-- The configuration fields read by the modelled strategies, with the
ad-hoc `config.get` default of each call site resolved by the caller. -/
structure Config where
  included_weapons : List String
  dynamic_profit_targets : List ProfitTier
  low_float_min_price_gap_usd : ℚ
  low_float_top_percentile_threshold : ℚ
  low_float_premium_retention_percentage : ℚ
  overpay_max_price_above_base_percentage : ℚ
  overpay_min_sticker_value : ℚ
  ftu_max_float_premium_percentage : ℚ
  ftu_float_proximity_threshold : ℚ

/-- `s.get("scm", {}).get("price") or s.get("reference", {}).get("price", 0)`
(scanner.py lines 289, 361, 390): the secondary-market quote when present
and nonzero, else the reference quote. -/
def decoration_value (d : Decoration) : ℚ :=
  match d.scm_price with
  | some p => if p = 0 then d.reference_price else p
  | none => d.reference_price

/-- Total decoration value in major units: the minor-unit sum divided
by 100. -/
def sticker_value_of (decorations : List Decoration) : ℚ :=
  (decorations.map decoration_value).sum / 100

/-- Per-listing body of `Scanner.analyze_low_float_deals` (scanner.py lines
231-269), `none` on every `continue` and on every per-listing exception the
Python loop absorbs.  `oracle` stands for `self.get_market_price`, whose
cache behaviour is modelled separately; the strategy consumes only the
returned price. -/
def lowFloatEval (cfg : Config) (oracle : String → ℚ) (item : Listing) :
    Option Deal :=
  let min_gap := cfg.low_float_min_price_gap_usd
  let threshold := cfg.low_float_top_percentile_threshold / 100
  if item.is_souvenir then none
  else if ¬ nameIncluded cfg.included_weapons item.market_hash_name then none
  else
    match item.wear_name with
    | none => none
    | some wear =>
      if wear = "" ∨ wear = "Factory New" then none
      else
        let float_value := (item.float_value).getD 1
        match list_index wear_tiers wear with
        | none => none
        | some idx =>
          match wear_tier_min_floats wear,
              (wear_tiers[idx - 1]?).bind wear_tier_min_floats with
          | some wear_min_float, some wear_max_float =>
            let tier_range := wear_max_float - wear_min_float
            if tier_range ≤ 0 ∨
                float_value > wear_min_float + tier_range * threshold then
              none
            else
              let name_no_wear := stripParens item.market_hash_name
              let current_wear_price := item.base_price / 100
              match wear_tiers[idx - 1]? with
              | none => none
              | some next_best_wear =>
                let next_best_wear_price :=
                  oracle (name_no_wear ++ " (" ++ next_best_wear ++ ")")
                if current_wear_price = 0 ∨ next_best_wear_price = 0 then
                  none
                else
                  let price_difference :=
                    next_best_wear_price - current_wear_price
                  if price_difference < min_gap then none
                  else
                    let listing_price := item.price / 100
                    let premium_retention :=
                      cfg.low_float_premium_retention_percentage / 100
                    let potential_gain := price_difference * premium_retention
                    let premium_paid := listing_price - current_wear_price
                    let profit := potential_gain - premium_paid
                    if is_deal_profitable cfg.dynamic_profit_targets profit
                        current_wear_price then
                      some ⟨item.id, "Low Float", item.market_hash_name,
                        item.icon_url, profit,
                        "https://csfloat.com/item/" ++ item.id⟩
                    else none
          | _, _ => none

/-- `Scanner.analyze_low_float_deals` over a batch. -/
def analyze_low_float_deals (cfg : Config) (oracle : String → ℚ)
    (listings : List Listing) : List Deal :=
  listings.filterMap (lowFloatEval cfg oracle)

/-- For every wear tier other than Factory New, the value the code uses as
the upper range bound — the minimum float of the tier one index better —
lies below the minimum float of the tier itself, so the computed
`tier_range` is never positive. -/
theorem tier_range_nonpos (wear : String) (idx : ℕ) (m M : ℚ)
    (hFN : ¬ (wear = "Factory New"))
    (hidx : list_index wear_tiers wear = some idx)
    (hm : wear_tier_min_floats wear = some m)
    (hM : (wear_tiers[idx - 1]?).bind wear_tier_min_floats = some M) :
    M - m ≤ 0 := by
  have hmem := list_index_mem _ _ _ hidx
  simp only [wear_tiers, List.mem_cons, List.not_mem_nil, or_false] at hmem
  rcases hmem with h | h | h | h | h
  · exact absurd h hFN
  · subst h
    have : idx = 1 := by
      have : list_index wear_tiers "Minimal Wear" = some 1 := by decide
      rw [this] at hidx; exact (Option.some.inj hidx).symm
    subst this
    have hm2 : m = 7 / 100 := by
      rw [show wear_tier_min_floats "Minimal Wear" = some (7 / 100)
        from by simp [wear_tier_min_floats]] at hm
      exact (Option.some.inj hm).symm
    have hM2 : M = 0 := by
      simp only [wear_tiers, show (1 : ℕ) - 1 = 0 from rfl,
        List.getElem?_cons_zero, Option.some_bind] at hM
      rw [show wear_tier_min_floats "Factory New" = some 0
        from by simp [wear_tier_min_floats]] at hM
      exact (Option.some.inj hM).symm
    rw [hm2, hM2]; norm_num
  · subst h
    have : idx = 2 := by
      have : list_index wear_tiers "Field-Tested" = some 2 := by decide
      rw [this] at hidx; exact (Option.some.inj hidx).symm
    subst this
    have hm2 : m = 15 / 100 := by
      rw [show wear_tier_min_floats "Field-Tested" = some (15 / 100)
        from by simp [wear_tier_min_floats]] at hm
      exact (Option.some.inj hm).symm
    have hM2 : M = 7 / 100 := by
      simp only [wear_tiers, show (2 : ℕ) - 1 = 1 from rfl,
        List.getElem?_cons_succ, List.getElem?_cons_zero,
        Option.some_bind] at hM
      rw [show wear_tier_min_floats "Minimal Wear" = some (7 / 100)
        from by simp [wear_tier_min_floats]] at hM
      exact (Option.some.inj hM).symm
    rw [hm2, hM2]; norm_num
  · subst h
    have : idx = 3 := by
      have : list_index wear_tiers "Well-Worn" = some 3 := by decide
      rw [this] at hidx; exact (Option.some.inj hidx).symm
    subst this
    have hm2 : m = 38 / 100 := by
      rw [show wear_tier_min_floats "Well-Worn" = some (38 / 100)
        from by simp [wear_tier_min_floats]] at hm
      exact (Option.some.inj hm).symm
    have hM2 : M = 15 / 100 := by
      simp only [wear_tiers, show (3 : ℕ) - 1 = 2 from rfl,
        List.getElem?_cons_succ, List.getElem?_cons_zero,
        Option.some_bind] at hM
      rw [show wear_tier_min_floats "Field-Tested" = some (15 / 100)
        from by simp [wear_tier_min_floats]] at hM
      exact (Option.some.inj hM).symm
    rw [hm2, hM2]; norm_num
  · subst h
    have : idx = 4 := by
      have : list_index wear_tiers "Battle-Scarred" = some 4 := by decide
      rw [this] at hidx; exact (Option.some.inj hidx).symm
    subst this
    have hm2 : m = 45 / 100 := by
      rw [show wear_tier_min_floats "Battle-Scarred" = some (45 / 100)
        from by simp [wear_tier_min_floats]] at hm
      exact (Option.some.inj hm).symm
    have hM2 : M = 38 / 100 := by
      simp only [wear_tiers, show (4 : ℕ) - 1 = 3 from rfl,
        List.getElem?_cons_succ, List.getElem?_cons_zero,
        Option.some_bind] at hM
      rw [show wear_tier_min_floats "Well-Worn" = some (38 / 100)
        from by simp [wear_tier_min_floats]] at hM
      exact (Option.some.inj hM).symm
    rw [hm2, hM2]; norm_num

/-- The low-float strategy emits nothing for any listing: the percentile
gate compares against a range whose upper bound is taken from the next
better tier, which is always below the lower bound, so `tier_range ≤ 0`
holds on every reachable path. -/
theorem lowFloatEval_none (cfg : Config) (oracle : String → ℚ)
    (item : Listing) : lowFloatEval cfg oracle item = none := by
  unfold lowFloatEval
  split
  · rfl
  split
  · rfl
  split
  · rfl
  rename_i wear hwear
  split
  · rfl
  rename_i hnotFN
  split
  · rfl
  rename_i idx hidx
  split
  rotate_right
  · rfl
  rename_i mFloat mMax hm hM
  have hFN : ¬ (wear = "Factory New") := fun h => hnotFN (Or.inr h)
  have hneg : mMax - mFloat ≤ 0 :=
    tier_range_nonpos wear idx mFloat mMax hFN hidx hm hM
  rcases hj : wear_tiers[idx - 1]? with _ | next
  · simp only [hj]
    split <;> rfl
  · simp only [hj]
    rw [if_pos (Or.inl hneg)]

/-- Claim C2 (code bug): contrary to the specified percentile test
`(float − tier_min) / (tier_max − tier_min)` against the top percentile of
the tier of the listing itself, `analyze_low_float_deals` takes its upper
bound from `wear_tiers[index - 1]`, the next better tier, whose minimum
float is below `tier_min`; `tier_range` is therefore never positive, the
`tier_range <= 0` branch always skips, and the strategy returns no deal on
any input — also at the specified failing input (Field-Tested, float 0.151,
threshold 10 percent), where the spec demands the evaluation continue. -/
theorem analyze_low_float_deals_empty (cfg : Config) (oracle : String → ℚ)
    (listings : List Listing) :
    analyze_low_float_deals cfg oracle listings = [] := by
  unfold analyze_low_float_deals
  induction listings with
  | nil => rfl
  | cons item rest ih =>
    rw [List.filterMap_cons, lowFloatEval_none cfg oracle item, ih]

/-- Per-listing body of `Scanner.analyze_high_overpay_deals` (scanner.py
lines 378-395): skip souvenirs and names outside the weapon filter, skip
when the base price is zero or the listing price exceeds the base price by
more than the configured percentage, skip when the total sticker value is
below the configured floor, otherwise emit with the raw sticker value in the
profit field.  `is_deal_profitable` is not consulted anywhere. -/
def overpayEval (cfg : Config) (item : Listing) : Option Deal :=
  let max_over_base := cfg.overpay_max_price_above_base_percentage / 100
  let min_sticker_val := cfg.overpay_min_sticker_value
  if item.is_souvenir then none
  else if ¬ nameIncluded cfg.included_weapons item.market_hash_name then none
  else
    let listing_price := item.price / 100
    let base_price := item.base_price / 100
    if base_price = 0 ∨ listing_price > base_price * (1 + max_over_base) then
      none
    else
      let sticker_value := sticker_value_of item.stickers
      if sticker_value < min_sticker_val then none
      else some ⟨item.id, "High Overpay Potential", item.market_hash_name,
        item.icon_url, sticker_value, "https://csfloat.com/item/" ++ item.id⟩

/-- `Scanner.analyze_high_overpay_deals` over a batch. -/
def analyze_high_overpay_deals (cfg : Config) (listings : List Listing) :
    List Deal :=
  listings.filterMap (overpayEval cfg)

/-- Claim C8: for a non-souvenir listing passing the weapon filter with a
positive base price, the high-overpay strategy emits a deal exactly when the
listing price is at most the base price scaled by one plus the configured
percentage and the total sticker value reaches the configured floor; the
emitted profit field is the raw total sticker value (the shared
profitability model plays no part in `overpayEval`). -/
theorem analyze_high_overpay_spec (cfg : Config) (item : Listing)
    (hsouv : item.is_souvenir = false)
    (hname : nameIncluded cfg.included_weapons item.market_hash_name = true)
    (hbase : 0 < item.base_price) :
    ((overpayEval cfg item).isSome = true ↔
      (item.price / 100 ≤ (item.base_price / 100) *
          (1 + cfg.overpay_max_price_above_base_percentage / 100) ∧
        cfg.overpay_min_sticker_value ≤ sticker_value_of item.stickers)) ∧
    (∀ d, overpayEval cfg item = some d →
      d.profit = sticker_value_of item.stickers) := by
  have hb : ¬ (item.base_price / 100 = 0) :=
    div_ne_zero (ne_of_gt hbase) (by norm_num)
  unfold overpayEval
  rw [if_neg (show ¬ (item.is_souvenir = true) by simp [hsouv]),
    if_neg (show ¬¬ (nameIncluded cfg.included_weapons
      item.market_hash_name = true) by simp [hname])]
  by_cases hcap : item.price / 100 ≤ (item.base_price / 100) *
      (1 + cfg.overpay_max_price_above_base_percentage / 100)
  · rw [if_neg (by push_neg; exact ⟨hb, hcap⟩)]
    by_cases hfloor :
        cfg.overpay_min_sticker_value ≤ sticker_value_of item.stickers
    · rw [if_neg (not_lt.mpr hfloor)]
      refine ⟨⟨fun _ => ⟨hcap, hfloor⟩, fun _ => rfl⟩, ?_⟩
      intro d hd
      cases hd
      rfl
    · rw [if_pos (not_le.mp hfloor)]
      exact ⟨by simp [hcap, hfloor], by intro d hd; cases hd⟩
  · rw [if_pos (Or.inr (not_le.mp hcap))]
    exact ⟨by simp [hcap], by intro d hd; cases hd⟩

/-- Claim C8 witness: the specified scenario — base price 100, listing
price 102 under the 5 percent cap, sticker value 60 at or above the 50
floor — is emitted, with profit field 60. -/
theorem analyze_high_overpay_spec_witness :
    (overpayEval
      ⟨["AK-47"], [], 10, 10, 30, 5, 50, 3, 8 / 1000⟩
      ⟨"L1", "AK-47 | Redline (Field-Tested)", some "Field-Tested",
        some (151 / 1000), false, [⟨"Sticker", some 6000, 0⟩], [],
        10200, 10000, ""⟩).isSome = true ∧
    (overpayEval
      ⟨["AK-47"], [], 10, 10, 30, 5, 50, 3, 8 / 1000⟩
      ⟨"L1", "AK-47 | Redline (Field-Tested)", some "Field-Tested",
        some (151 / 1000), false, [⟨"Sticker", some 6000, 0⟩], [],
        10200, 10000, ""⟩).map Deal.profit = some 60 := by
  have h := analyze_high_overpay_spec
    ⟨["AK-47"], [], 10, 10, 30, 5, 50, 3, 8 / 1000⟩
    ⟨"L1", "AK-47 | Redline (Field-Tested)", some "Field-Tested",
      some (151 / 1000), false, [⟨"Sticker", some 6000, 0⟩], [],
      10200, 10000, ""⟩
    rfl (by decide) (by norm_num)
  have hv : sticker_value_of [(⟨"Sticker", some 6000, 0⟩ : Decoration)]
      = 60 := by
    norm_num [sticker_value_of, decoration_value]
  have hsome := h.1.mpr (by rw [hv]; norm_num)
  refine ⟨hsome, ?_⟩
  obtain ⟨d, hd⟩ := Option.isSome_iff_exists.mp hsome
  rw [hd]
  have := h.2 d hd
  rw [Option.map_some', this, hv]

/-- Per-listing body of `Scanner.analyze_float_tier_upgrade` (scanner.py
lines 174-223), the strategy run only when
`config["float_tier_upgrade"]["enabled"]` is set: skip when name, wear or
float is missing, empty or zero, on Factory New, on souvenirs, outside the
weapon filter; skip unless the wear-tier minimum float is nonzero and the
float lies below that minimum plus the proximity threshold; skip when a
positive base price is exceeded by the listing price beyond the premium
percentage; look up the next better tier through the price oracle; skip a
zero oracle price; emit when `is_deal_profitable` accepts
`next_tier_price - listing_price` against the listing price. -/
def floatTierUpgradeEval (cfg : Config) (oracle : String → ℚ)
    (item : Listing) : Option Deal :=
  let max_premium := cfg.ftu_max_float_premium_percentage / 100
  let proximity_threshold := cfg.ftu_float_proximity_threshold
  match item.wear_name, item.float_value with
  | some wear, some float_value =>
    if item.market_hash_name = "" ∨ wear = "" ∨ float_value = 0 ∨
        wear = "Factory New" ∨ item.is_souvenir then none
    else if ¬ nameIncluded cfg.included_weapons item.market_hash_name then
      none
    else
      match wear_tier_min_floats wear with
      | none => none
      | some wear_min_float =>
        if ¬ (wear_min_float ≠ 0 ∧
            float_value < wear_min_float + proximity_threshold) then none
        else
          let listing_price := item.price / 100
          let base_price := item.base_price / 100
          if 0 < base_price ∧ listing_price > base_price * (1 + max_premium)
          then none
          else
            let name_no_wear := stripParens item.market_hash_name
            match list_index wear_tiers wear with
            | none => none
            | some idx =>
              match wear_tiers[idx - 1]? with
              | none => none
              | some next_best_wear =>
                let next_tier_price :=
                  oracle (name_no_wear ++ " (" ++ next_best_wear ++ ")")
                if next_tier_price = 0 then none
                else
                  let profit := next_tier_price - listing_price
                  if is_deal_profitable cfg.dynamic_profit_targets profit
                      listing_price then
                    some ⟨item.id, "Float Tier Upgrade",
                      item.market_hash_name, item.icon_url, profit,
                      "https://csfloat.com/item/" ++ item.id⟩
                  else none
  | _, _ => none

/-- `Scanner.analyze_float_tier_upgrade` over a batch. -/
def analyze_float_tier_upgrade (cfg : Config) (oracle : String → ℚ)
    (listings : List Listing) : List Deal :=
  listings.filterMap (floatTierUpgradeEval cfg oracle)

/-- Claim C9: for a non-Factory-New, non-souvenir listing passing the other
pre-filters, with the premium cap satisfied and a nonzero next-tier oracle
price, the float-tier-upgrade strategy emits exactly when the float lies
within the proximity threshold above the minimum float of the wear tier of
the listing and `is_deal_profitable` accepts
`next_tier_price - listing_price` with the listing price as denominator;
the emitted profit equals `next_tier_price - listing_price`. -/
theorem analyze_float_tier_upgrade_spec (cfg : Config) (oracle : String → ℚ)
    (item : Listing) (wear : String) (float_value m : ℚ) (idx : ℕ)
    (next_best_wear : String)
    (hw : item.wear_name = some wear)
    (hf : item.float_value = some float_value)
    (hn : ¬ (item.market_hash_name = "")) (hw0 : ¬ (wear = ""))
    (hf0 : ¬ (float_value = 0)) (hFN : ¬ (wear = "Factory New"))
    (hsouv : item.is_souvenir = false)
    (hname : nameIncluded cfg.included_weapons item.market_hash_name = true)
    (hmin : wear_tier_min_floats wear = some m) (hm0 : ¬ (m = 0))
    (hprem : ¬ (0 < item.base_price / 100 ∧ item.price / 100 >
      (item.base_price / 100) *
        (1 + cfg.ftu_max_float_premium_percentage / 100)))
    (hidx : list_index wear_tiers wear = some idx)
    (hnext : wear_tiers[idx - 1]? = some next_best_wear)
    (hntp : ¬ (oracle (stripParens item.market_hash_name ++ " (" ++
      next_best_wear ++ ")") = 0)) :
    ((floatTierUpgradeEval cfg oracle item).isSome = true ↔
      (float_value < m + cfg.ftu_float_proximity_threshold ∧
        is_deal_profitable cfg.dynamic_profit_targets
          (oracle (stripParens item.market_hash_name ++ " (" ++
            next_best_wear ++ ")") - item.price / 100)
          (item.price / 100) = true)) ∧
    (∀ d, floatTierUpgradeEval cfg oracle item = some d →
      d.profit = oracle (stripParens item.market_hash_name ++ " (" ++
        next_best_wear ++ ")") - item.price / 100) := by
  have hpre1 : ¬ (item.market_hash_name = "" ∨ wear = "" ∨ float_value = 0 ∨
      wear = "Factory New" ∨ item.is_souvenir = true) := by
    push_neg
    exact ⟨hn, hw0, hf0, hFN, by simp [hsouv]⟩
  simp only [floatTierUpgradeEval, hw, hf, hmin, hidx, hnext]
  rw [if_neg hpre1]
  rw [if_neg (show ¬¬ (nameIncluded cfg.included_weapons
    item.market_hash_name = true) by simp [hname])]
  by_cases hprox : float_value < m + cfg.ftu_float_proximity_threshold
  · rw [if_neg (not_not_intro ⟨hm0, hprox⟩), if_neg hprem, if_neg hntp]
    by_cases hprof : is_deal_profitable cfg.dynamic_profit_targets
        (oracle (stripParens item.market_hash_name ++ " (" ++
          next_best_wear ++ ")") - item.price / 100)
        (item.price / 100) = true
    · rw [if_pos hprof]
      refine ⟨by simp [hprox, hprof], ?_⟩
      intro d hd
      cases hd
      rfl
    · rw [if_neg hprof]
      refine ⟨by simp [hprof], ?_⟩
      intro d hd
      cases hd
  · rw [if_pos (show ¬ (¬ (m = 0) ∧
      float_value < m + cfg.ftu_float_proximity_threshold) from
      fun hc => hprox hc.2)]
    refine ⟨by simp [hprox], ?_⟩
    intro d hd
    cases hd

/-- Claim C9 witness: a Field-Tested listing with float 0.151, within the
0.008 proximity above the 0.15 tier minimum, next-tier price 150 against
listing price 100, accepted by the single configured profit tier. -/
theorem analyze_float_tier_upgrade_spec_witness :
    (floatTierUpgradeEval
      ⟨["AK-47"], [⟨1000, 1, 1⟩], 10, 10, 30, 5, 50, 3, 8 / 1000⟩
      (fun _ => 150)
      ⟨"L2", "AK-47 | Redline (Field-Tested)", some "Field-Tested",
        some (151 / 1000), false, [], [], 10000, 10000, ""⟩).isSome = true :=
  (analyze_float_tier_upgrade_spec
    ⟨["AK-47"], [⟨1000, 1, 1⟩], 10, 10, 30, 5, 50, 3, 8 / 1000⟩
    (fun _ => 150)
    ⟨"L2", "AK-47 | Redline (Field-Tested)", some "Field-Tested",
      some (151 / 1000), false, [], [], 10000, 10000, ""⟩
    "Field-Tested" (151 / 1000) (15 / 100) 2 "Minimal Wear"
    rfl rfl (by decide) (by decide) (by norm_num) (by decide) rfl (by decide)
    (by simp [wear_tier_min_floats]) (by norm_num) (by norm_num)
    (by decide) (by decide)
    (by norm_num)).1.mpr
    ⟨by norm_num, by norm_num [is_deal_profitable, profit_tier_loop]⟩

/-- Environment of one iteration of `Scanner.run_continuous_scan`
(scanner.py lines 49-81): the listings the fetch returned for this cycle,
whether the strategy pass over them raises an uncaught exception, the deals
it would return if it completes, and whether `save_deals_to_db` raises.
`fetch_listings` absorbs its own errors internally and the per-listing
errors inside each strategy are absorbed per item, so these two switches
are the uncaught-exception points of the `try` block named by the claim. -/
structure CycleEnv where
  listings : List Listing
  analysisRaises : Bool
  deals : List Deal
  saveRaises : Bool

/-- Outcome of one cycle: `self.seen_listing_ids` afterwards, whether the
`except` clause caught an exception, and whether the inter-cycle sleep
ran. -/
structure CycleResult where
  seen : List String
  exceptionCaught : Bool
  sleptInterval : Bool
  deriving DecidableEq

/-- One iteration of the `while True` loop of `run_continuous_scan`: inside
the `try`, fetch, analyze, save, and only then (line 73, still inside the
`try` and inside `if listings:`) merge the fetched identifiers into the
seen set; an exception jumps to the `except` clause, skipping anything
after the raise point including the merge; `time.sleep(interval)` stands
after the handler and runs on every path. -/
def run_scan_cycle (seen : List String) (env : CycleEnv) : CycleResult :=
  if env.listings.isEmpty then ⟨seen, false, true⟩
  else if env.analysisRaises then ⟨seen, true, true⟩
  else if ¬ env.deals.isEmpty ∧ env.saveRaises then ⟨seen, true, true⟩
  else ⟨seen ++ env.listings.map Listing.id, false, true⟩

/-- Claim C3 counterexample: a cycle that fetched the listing with
identifier a and whose strategy pass raises leaves the seen set unchanged —
the identifier is not merged, contrary to the claim that the merge happens
regardless of the outcome of the cycle. -/
theorem run_scan_cycle_merge_skipped_on_raise :
    (run_scan_cycle []
        ⟨[⟨"a", "n", none, none, false, [], [], 100, 100, ""⟩],
          true, [], false⟩).exceptionCaught = true ∧
    ("a" : String) ∉ (run_scan_cycle []
        ⟨[⟨"a", "n", none, none, false, [], [], 100, 100, ""⟩],
          true, [], false⟩).seen := by
  constructor
  · rfl
  · simp [run_scan_cycle]

/-- Claim C3 as amended: the inter-cycle sleep runs on every path and a
cycle-level exception is contained, but the fetched identifiers are merged
into the seen set only when the strategy pass and the persistence hand-off
complete without raising; a raise in either leaves the seen set exactly as
it was. -/
theorem run_scan_cycle_spec (seen : List String) (env : CycleEnv) :
    (run_scan_cycle seen env).sleptInterval = true ∧
    (env.analysisRaises = false →
      (env.deals = [] ∨ env.saveRaises = false) →
      ∀ it ∈ env.listings, it.id ∈ (run_scan_cycle seen env).seen) ∧
    (env.listings ≠ [] →
      (env.analysisRaises = true ∨ (env.deals ≠ [] ∧ env.saveRaises = true)) →
      (run_scan_cycle seen env).seen = seen ∧
        (run_scan_cycle seen env).exceptionCaught = true) := by
  refine ⟨?_, ?_, ?_⟩
  · unfold run_scan_cycle
    split
    · rfl
    split
    · rfl
    split
    · rfl
    · rfl
  · intro hana hsave it hit
    have hne : ¬ env.listings.isEmpty := by
      intro hemp
      rw [List.isEmpty_iff] at hemp
      rw [hemp] at hit
      simp at hit
    have hsave2 : ¬ (¬ env.deals.isEmpty ∧ env.saveRaises = true) := by
      rcases hsave with h | h
      · intro hc
        exact hc.1 (List.isEmpty_iff.mpr h)
      · intro hc
        rw [h] at hc
        exact Bool.false_ne_true hc.2
    unfold run_scan_cycle
    rw [if_neg hne, if_neg (by simp [hana]), if_neg hsave2]
    simp only [List.mem_append, List.mem_map]
    exact Or.inr ⟨it, hit, rfl⟩
  · intro hne hraise
    have hne2 : ¬ env.listings.isEmpty := by
      intro hemp
      exact hne (List.isEmpty_iff.mp hemp)
    unfold run_scan_cycle
    rw [if_neg hne2]
    rcases hraise with h | h
    · rw [if_pos h]
      exact ⟨rfl, rfl⟩
    · by_cases hana : env.analysisRaises = true
      · rw [if_pos hana]
        exact ⟨rfl, rfl⟩
      · rw [if_neg hana,
          if_pos ⟨fun hc => h.1 (List.isEmpty_iff.mp hc), h.2⟩]
        exact ⟨rfl, rfl⟩

/-- Claim C3 witness: a cycle with one fetched listing, no raises and no
deals merges the identifier a into the seen set. -/
theorem run_scan_cycle_spec_witness :
    ("a" : String) ∈ (run_scan_cycle []
      ⟨[⟨"a", "n", none, none, false, [], [], 100, 100, ""⟩],
        false, [], false⟩).seen :=
  (run_scan_cycle_spec []
    ⟨[⟨"a", "n", none, none, false, [], [], 100, 100, ""⟩],
      false, [], false⟩).2.1 rfl (Or.inl rfl)
    ⟨"a", "n", none, none, false, [], [], 100, 100, ""⟩ (by simp)

end CsfloatTrades
